import Mathlib

/-!
Shallow embedding of `qbittorrent/Client.py` (python-qBittorrent): the
request dispatcher with its 403 retry loop (`Client._request`), the login
flow (`Client.login`), the batch-target normalizer
(`Client._process_infohash_list`), the file-priority validation
(`Client.set_file_priority`), URL construction (`Client.__init__`), and the
keyword arguments attached to each outgoing HTTP call.
-/

namespace QBit

/-- An HTTP response as seen by the client: status code and body text
(`request.status_code`, `request.text`). -/
structure Response where
  status : Nat
  text : String
deriving DecidableEq, Repr

/-- A JSON value, the result of `json.loads`. Numbers are modelled as
integers; the dispatcher never inspects the parsed value, so this is only
a carrier type. -/
inductive Json where
  | null : Json
  | bool (b : Bool) : Json
  | num (n : Int) : Json
  | str (s : String) : Json
  | arr (l : List Json) : Json
  | obj (l : List (String × Json)) : Json

/-- What `Client._request` returns to its caller on success: either parsed
JSON or the raw response text. -/
inductive RespData where
  | json (j : Json) : RespData
  | text (s : String) : RespData

/-- The error raised by `request.raise_for_status()` (`requests.HTTPError`,
the spec's `RequestError`), carrying the HTTP status. -/
inductive ReqError where
  | httpError (status : Nat) : ReqError
deriving DecidableEq, Repr

/-- Lines 171-179 of `Client._request`: empty body yields `json.loads("{}")`
(the empty JSON object); otherwise try `json.loads(request.text)` and fall
back to the raw text on a parse failure. The JSON parser `json.loads` is
abstracted as a `parse` function returning `none` exactly when it would
raise `ValueError`. -/
def responseData (parse : String → Option Json) (text : String) : RespData :=
  if text = "" then .json (.obj [])
  else
    match parse text with
    | some j => .json j
    | none => .text text

/-- Result of one dispatched logical call, instrumented with the number of
HTTP attempts of the original endpoint and the number of `login()` calls
triggered by 403 responses. -/
structure DispatchResult where
  result : Except ReqError RespData
  attempts : Nat
  logins : Nat

/-- `Client._request` (lines 142-179). Each invocation issues exactly one
HTTP call of the endpoint; `server i` is the response to the call made by
the invocation whose `attempt` counter is `i` (the original call enters
with `attempt = 0`). If the status is 403 and `attempt <= maxAttempts`
(`self._max_attempts_on_403`), the code calls `self.login()` and recurses
with `attempt + 1`; in the claims' stub scenarios the re-login always
succeeds, so `login()` is modelled as incrementing the login counter.
Otherwise `raise_for_status()` raises for any status in [400, 600), and on
a non-error status the body is normalized by `responseData`. -/
def dispatchAux (parse : String → Option Json) (server : Nat → Response)
    (maxAttempts attempt : Nat) : DispatchResult :=
  let resp := server attempt
  if h : resp.status = 403 ∧ attempt ≤ maxAttempts then
    let r := dispatchAux parse server maxAttempts (attempt + 1)
    { result := r.result, attempts := r.attempts + 1, logins := r.logins + 1 }
  else if 400 ≤ resp.status ∧ resp.status < 600 then
    { result := .error (.httpError resp.status), attempts := 1, logins := 0 }
  else
    { result := .ok (responseData parse resp.text), attempts := 1, logins := 0 }
termination_by maxAttempts + 1 - attempt
decreasing_by
  simp_wf
  omega

/-- A dispatched call always starts with `attempt = 0` (the default of the
`attempt` keyword parameter, used by `_get` and `_post`). -/
def dispatch (parse : String → Option Json) (server : Nat → Response)
    (maxAttempts : Nat) : DispatchResult :=
  dispatchAux parse server maxAttempts 0

/-- Stub server for the retry claims: 403 on the first `n` attempts, then
HTTP 200 with body `body`. -/
def stubServer403 (n : Nat) (body : String) : Nat → Response :=
  fun i => if i < n then ⟨403, ""⟩ else ⟨200, body⟩

/-- The mutable client state touched by `login` (lines 51-52 set
`self._session = None` and `self._is_authenticated = False` in
`__init__`). A session object (`requests.Session()`) is opaque; each call
to the constructor yields a fresh object, modelled by the generation
counter `sessionCounter`: the session created by the `k`-th construction
is `k`, so `session` holds `some k` for the most recently stored object,
or `none` when no session was ever assigned. -/
structure ClientState where
  session : Option Nat
  sessionCounter : Nat
  is_authenticated : Bool
deriving DecidableEq, Repr

/-- `WrongCredentials` from `qbittorrent/Exceptions.py` (the spec's
`InvalidCredentialsError`). -/
inductive LoginError where
  | wrongCredentials : LoginError
deriving DecidableEq, Repr

/-- `Client.login` (lines 181-202). The code first unconditionally assigns
`self._session = requests.Session()` (a fresh object, modelled by the next
generation id), then posts the credentials; if the response body text is
exactly `"Ok."` it returns, otherwise it raises `WrongCredentials`. Either
way the state mutation has already happened, so the resulting state is
returned alongside the optional raised error. `self._is_authenticated` is
not touched anywhere in `login`. -/
def login (st : ClientState) (resp : Response) : ClientState × Option LoginError :=
  let st' : ClientState :=
    { st with session := some st.sessionCounter, sessionCounter := st.sessionCounter + 1 }
  if resp.text = "Ok." then (st', none)
  else (st', some .wrongCredentials)

/-- Python `str.lower()` applied character-wise. -/
def pyLower (s : String) : String :=
  ⟨s.data.map Char.toLower⟩

/-- Python `sep.join(parts)`: the parts interleaved with the separator,
no leading or trailing separator, `""` on the empty list. -/
def pyJoin (sep : String) : List String → String
  | [] => ""
  | [s] => s
  | s :: rest => s ++ sep ++ pyJoin sep rest

/-- The argument of `_process_infohash_list`: Python passes either a single
`str` or a `list` of `str`. -/
inductive InfohashArg where
  | str (s : String) : InfohashArg
  | list (l : List String) : InfohashArg
deriving DecidableEq, Repr

/-- `Client._process_infohash_list` (lines 483-494): a list becomes
`{"hashes": "|".join([h.lower() for h in infohash_list])}`, anything else
(a single string, including the sentinel `"all"`) becomes
`{"hashes": infohash_list.lower()}`. -/
def process_infohash_list : InfohashArg → List (String × String)
  | .list l => [("hashes", pyJoin "|" (l.map pyLower))]
  | .str s => [("hashes", pyLower s)]

/-- Whether a normalizer input has only non-empty content: a non-empty
single string, or a non-empty list of non-empty strings. -/
def nonEmptyInput : InfohashArg → Bool
  | .str s => !(s == "")
  | .list l => !l.isEmpty && l.all (fun s => !(s == ""))

/-- Modelled from the spec: the Batch Target Normalizer's output value as
§4.3 describes it — the lower-cased single identifier, the lower-cased
identifiers joined by the pipe delimiter, or the sentinel `"all"`
unchanged (not split, no delimiter added). -/
def normalizeSpec : InfohashArg → String
  | .str s => if s = "all" then "all" else pyLower s
  | .list l => pyJoin "|" (l.map pyLower)

/-- A Python value as relevant to `set_file_priority`: an `int` or some
other (non-`int`) value, represented by a string. -/
inductive PyValue where
  | int (n : Int) : PyValue
  | str (s : String) : PyValue
deriving DecidableEq, Repr

/-- `isinstance(v, int)`. -/
def PyValue.isInt : PyValue → Bool
  | .int _ => true
  | .str _ => false

/-- The local precondition errors of `set_file_priority`: `ValueError`
for a bad priority, `TypeError` for a non-`int` file id (both are the
spec's `ValidationError`). -/
inductive PyError where
  | valueError : PyError
  | typeError : PyError
deriving DecidableEq, Repr

/-- One POST issued to the transport: endpoint and form data fields. -/
structure PostCall where
  endpoint : String
  fields : List (String × PyValue)
deriving DecidableEq, Repr

/-- The allowed priority levels of `set_file_priority` (line 685):
`[0, 1, 2, 4, 6, 7]`. -/
def allowedPriorities : List PyValue :=
  [.int 0, .int 1, .int 2, .int 4, .int 6, .int 7]

/-- `Client.set_file_priority` (lines 674-692). Checks
`priority not in [0, 1, 2, 4, 6, 7]` (raising `ValueError`), then
`not isinstance(file_id, int)` (raising `TypeError`), before building the
data dict and posting to `torrents/filePrio`. The second component lists
the network calls actually issued, in order. -/
def set_file_priority (infohash : String) (file_id : PyValue) (priority : PyValue) :
    Option PyError × List PostCall :=
  if priority ∉ allowedPriorities then (some .valueError, [])
  else if !file_id.isInt then (some .typeError, [])
  else
    (none,
      [⟨"torrents/filePrio",
        [("hash", .str (pyLower infohash)), ("id", file_id), ("priority", priority)]⟩])

/-- Python `url.endswith("/")`: the last character is a slash. -/
def endsWithSlash (url : String) : Bool :=
  url.data.getLast? == some '/'

/-- Lines 42-45 of `Client.__init__`: append `"/"` when the given base URL
does not end with one, then append `"api/v2/"`; the result is stored as
`self._url`. -/
def clientBaseUrl (url : String) : String :=
  (if endsWithSlash url then url else url ++ "/") ++ "api/v2/"

/-- Line 155 of `Client._request`: `final_url = self._url + endpoint`. -/
def final_url (baseUrl endpoint : String) : String :=
  baseUrl ++ endpoint

/-- Modelled from the spec: `<root>` in the target form
`<root>/api/v2/<endpoint>` — the constructor's base URL argument with its
trailing slash (when present) removed. -/
def specRoot (url : String) : String :=
  if endsWithSlash url then ⟨url.data.dropLast⟩ else url

/-- The client configuration fields that `_request` and `login` attach to
outgoing HTTP calls: `self._url`, `self._verify` and `self._timeout`
(lines 45-47). `T` is the type of timeout values (a scalar or a
connect/read pair); `none` models Python's `None`, i.e. no timeout. -/
structure Config (T : Type) where
  url : String
  verify : Bool
  timeout : Option T

/-- One outgoing HTTP call with the keyword arguments the client passes to
the `requests` library; `timeout = none` means the call is not bounded by
any timeout. -/
structure HttpCall (T : Type) where
  url : String
  verify : Bool
  timeout : Option T

/-- Lines 155-162 of `Client._request`: every call through `_request` (the
path taken by every public operation except `login`) sets
`kwargs["verify"] = self._verify` and `kwargs["timeout"] = self._timeout`
before invoking `self._session.get`/`.post` on `self._url + endpoint`. -/
def request_http_call {T : Type} (cfg : Config T) (endpoint : String) : HttpCall T :=
  { url := cfg.url ++ endpoint, verify := cfg.verify, timeout := cfg.timeout }

/-- Lines 192-198 of `Client.login`: the login POST to `auth/login` passes
`data` and `verify=self._verify` only — no `timeout` keyword argument, so
the call is issued with the `requests` default of no timeout. -/
def login_http_call {T : Type} (cfg : Config T) : HttpCall T :=
  { url := cfg.url ++ "auth/login", verify := cfg.verify, timeout := none }

/-! ## Helper lemmas -/

theorem string_data_append (s t : String) : (s ++ t).data = s.data ++ t.data := by
  cases s
  cases t
  rfl

theorem string_eq_of_data_eq {s t : String} (h : s.data = t.data) : s = t := by
  cases s
  cases t
  exact congrArg String.mk h

theorem string_empty_of_data_nil {s : String} (h : s.data = []) : s = "" :=
  string_eq_of_data_eq h

theorem string_append_assoc (a b c : String) : (a ++ b) ++ c = a ++ (b ++ c) := by
  apply string_eq_of_data_eq
  rw [string_data_append, string_data_append, string_data_append, string_data_append]
  exact List.append_assoc a.data b.data c.data

/-- Unfolding `dispatchAux` on a server that answers 403 forever: starting
from counter `attempt` with `attempt + d = maxAttempts + 1`, it performs
`d + 1` HTTP calls and `d` logins and ends in `HTTPError` 403. -/
theorem dispatchAux_const403 (parse : String → Option Json) (maxAttempts : Nat) :
    ∀ (d attempt : Nat), attempt + d = maxAttempts + 1 →
      dispatchAux parse (fun _ => ⟨403, ""⟩) maxAttempts attempt =
        ⟨.error (.httpError 403), d + 1, d⟩ := by
  intro d
  induction d with
  | zero =>
    intro attempt h
    rw [dispatchAux]
    rw [dif_neg (by omega : ¬((403 : Nat) = 403 ∧ attempt ≤ maxAttempts))]
    rw [if_pos (by omega : (400 : Nat) ≤ 403 ∧ (403 : Nat) < 600)]
  | succ d ih =>
    intro attempt h
    rw [dispatchAux]
    rw [dif_pos (⟨rfl, by omega⟩ : (403 : Nat) = 403 ∧ attempt ≤ maxAttempts)]
    rw [ih (attempt + 1) (by omega)]

/-- Unfolding `dispatchAux` on the stub server that answers 403 for the
first `n` attempts and then succeeds: starting from counter `attempt` with
`attempt + d = n ≤ maxAttempts`, it performs `d + 1` HTTP calls and `d`
logins and returns the normalized success body. -/
theorem dispatchAux_stub403 (parse : String → Option Json) (body : String)
    (maxAttempts n : Nat) (hn : n ≤ maxAttempts) :
    ∀ (d attempt : Nat), attempt + d = n →
      dispatchAux parse (stubServer403 n body) maxAttempts attempt =
        ⟨.ok (responseData parse body), d + 1, d⟩ := by
  intro d
  induction d with
  | zero =>
    intro attempt h
    have hsrv : stubServer403 n body attempt = ⟨200, body⟩ := by
      simp [stubServer403]
      omega
    rw [dispatchAux, hsrv]
    rw [dif_neg (by omega : ¬((200 : Nat) = 403 ∧ attempt ≤ maxAttempts))]
    rw [if_neg (by omega : ¬((400 : Nat) ≤ 200 ∧ (200 : Nat) < 600))]
  | succ d ih =>
    intro attempt h
    have hsrv : stubServer403 n body attempt = ⟨403, ""⟩ := by
      simp [stubServer403]
      omega
    rw [dispatchAux, hsrv]
    rw [dif_pos (⟨rfl, by omega⟩ : (403 : Nat) = 403 ∧ attempt ≤ maxAttempts)]
    rw [ih (attempt + 1) (by omega)]

/-! ## Claims -/

/-- C1: the claim says a permanently-403 server makes the dispatcher fail
after exactly `maxAttempts + 1` total HTTP attempts. The code retries
while `attempt <= self._max_attempts_on_403` with `attempt` starting at 0,
so it actually performs `maxAttempts + 2` HTTP attempts of the original
call (and `maxAttempts + 1` re-logins) before `raise_for_status()` raises;
with the default `max_attempts_on_403 = 3` that is 5 attempts, not 4. This
also contradicts the constructor docstring, which calls the parameter the
maximum number of times a request is redone after a 403 and a re-login:
the off-by-one is in `attempt <= self._max_attempts_on_403` (line 164),
which should be a strict comparison. -/
theorem request_always403_attempts_off_by_one (parse : String → Option Json)
    (maxAttempts : Nat) :
    dispatch parse (fun _ => ⟨403, ""⟩) maxAttempts =
      ⟨.error (.httpError 403), maxAttempts + 2, maxAttempts + 1⟩ := by
  unfold dispatch
  rw [dispatchAux_const403 parse maxAttempts (maxAttempts + 1) 0 (by omega)]

/-- C2: with a server answering 403 on the first `n < maxAttempts` attempts
and succeeding afterwards, dispatch performs exactly `n + 1` HTTP attempts
of the original call, triggers exactly `n` re-logins, and returns the
successful response's normalized value. -/
theorem request_403_then_success (parse : String → Option Json) (body : String)
    (maxAttempts n : Nat) (h : n < maxAttempts) :
    dispatch parse (stubServer403 n body) maxAttempts =
      ⟨.ok (responseData parse body), n + 1, n⟩ := by
  unfold dispatch
  rw [dispatchAux_stub403 parse body maxAttempts n (by omega) n 0 (by omega)]

/-- Witness for C2 at `n = 1`, `maxAttempts = 3`, body `"x"` with a parser
that rejects it: two HTTP attempts, one re-login, raw text returned. -/
theorem request_403_then_success_witness :
    1 < 3 ∧
      dispatch (fun _ => none) (stubServer403 1 "x") 3 =
        ⟨.ok (.text "x"), 2, 1⟩ := by
  refine ⟨by decide, ?_⟩
  have h := request_403_then_success (fun _ => none) "x" 3 1 (by decide)
  have hx : ("x" : String) ≠ "" := by decide
  simpa [responseData, hx] using h

/-- C3 counterexample: the claim says a successful login marks the client
state authenticated and a failed login leaves no session set. At concrete
inputs: a login answered `"Ok."` from the freshly-initialized state
succeeds yet leaves `is_authenticated = false` (no code path ever sets it
to `True`), and a failed login from a state holding a previous session
still has a session assigned afterwards (the fresh `requests.Session()`
created on line 192 before the credential check). -/
theorem login_claimed_state_changes_fail :
    (login ⟨none, 0, false⟩ ⟨200, "Ok."⟩).2 = none ∧
    (login ⟨none, 0, false⟩ ⟨200, "Ok."⟩).1.is_authenticated = false ∧
    (login ⟨some 0, 1, false⟩ ⟨200, "nope"⟩).2 = some .wrongCredentials ∧
    (login ⟨some 0, 1, false⟩ ⟨200, "nope"⟩).1.session ≠ none := by
  refine ⟨rfl, rfl, ?_, ?_⟩ <;> simp [login]

/-- C3 amended: whether or not the response body is the success literal
`"Ok."`, `login` stores the freshly created session (so the previous
session is replaced, but the session field is never left unset) and leaves
`is_authenticated` exactly as it was (the flag is initialized `False` in
`__init__` and never updated); the call raises `InvalidCredentialsError`
exactly when the body is not `"Ok."`. -/
theorem login_stores_fresh_session_only (st : ClientState) (resp : Response) :
    (login st resp).1.session = some st.sessionCounter ∧
    (login st resp).1.is_authenticated = st.is_authenticated ∧
    ((login st resp).2 = none ↔ resp.text = "Ok.") := by
  unfold login
  by_cases h : resp.text = "Ok." <;> simp [h]

/-- C4: authentication succeeds if and only if the response body is exactly
the literal `"Ok."`; the HTTP status code (including 200) plays no role,
and any other body raises `InvalidCredentialsError`. -/
theorem login_success_iff_body_ok (st : ClientState) (status : Nat) (body : String) :
    ((login st ⟨status, body⟩).2 = none ↔ body = "Ok.") ∧
    ((login st ⟨status, body⟩).2 = some .wrongCredentials ↔ body ≠ "Ok.") := by
  unfold login
  by_cases h : body = "Ok." <;> simp [h]

/-- C5 counterexample: the claim says the normalizer never produces the
empty string, but the empty list input normalizes to
`{"hashes": ""}` (Python's `"|".join([])` is `""`), which is empty and is
not the `"all"` sentinel. -/
theorem process_infohash_list_empty_on_empty_list :
    process_infohash_list (.list []) = [("hashes", "")] ∧ ("" : String) ≠ "all" := by
  refine ⟨rfl, by decide⟩

/-- C5 amended: for every input whose content is non-empty — a non-empty
single identifier string, or a non-empty list of non-empty identifier
strings — the normalized wire value is a non-empty string (the sentinel
`"all"` is such an input and yields `"all"`); the empty string and the
empty list, which the code also accepts, normalize to the empty string. -/
theorem process_infohash_list_nonempty (arg : InfohashArg)
    (h : nonEmptyInput arg = true) :
    ∀ v, process_infohash_list arg = [("hashes", v)] → v ≠ "" := by
  have lower_ne : ∀ s : String, s ≠ "" → pyLower s ≠ "" := by
    intro s hs hcontra
    apply hs
    apply string_empty_of_data_nil
    have hd : (pyLower s).data = [] := by rw [hcontra]
    simp only [pyLower] at hd
    exact List.map_eq_nil_iff.mp hd
  cases arg with
  | str s =>
    intro v hv
    simp only [process_infohash_list, List.cons.injEq, Prod.mk.injEq] at hv
    have hs : s ≠ "" := by
      simpa [nonEmptyInput] using h
    rw [← hv.1.2]
    exact lower_ne s hs
  | list l =>
    intro v hv
    simp only [process_infohash_list, List.cons.injEq, Prod.mk.injEq] at hv
    simp only [nonEmptyInput, Bool.and_eq_true, List.all_eq_true] at h
    match l, hv with
    | [a], hv =>
      have ha : a ≠ "" := by simpa using h.2 a (by simp)
      rw [← hv.1.2]
      simpa [pyJoin] using lower_ne a ha
    | a :: b :: t, hv =>
      rw [← hv.1.2]
      intro hcontra
      have hd := congrArg String.data hcontra
      simp only [pyJoin, List.map] at hd
      rw [string_data_append, string_data_append] at hd
      rcases List.append_eq_nil.mp (List.append_eq_nil.mp hd).1 with ⟨-, hbar⟩
      exact absurd hbar (by decide)

/-- Witness for the amended C5 at the mixed-case pair list from the spec:
the input is non-empty and its normalized value `"ab12|cd34"` is not the
empty string. -/
theorem process_infohash_list_nonempty_witness :
    nonEmptyInput (.list ["AB12", "cd34"]) = true ∧ ("ab12|cd34" : String) ≠ "" := by
  refine ⟨by decide, ?_⟩
  exact process_infohash_list_nonempty (.list ["AB12", "cd34"]) (by decide)
    "ab12|cd34" (by decide)

/-- C6: the normalizer produces exactly the field `{hashes: <value>}` the
spec describes — lower-cased single identifier, lower-cased identifiers
joined by the pipe delimiter, the sentinel `"all"` unchanged — and on the
spec's concrete example the value is exactly `"ab12|cd34"`. -/
theorem process_infohash_list_matches_spec :
    (∀ arg, process_infohash_list arg = [("hashes", normalizeSpec arg)]) ∧
    process_infohash_list (.list ["AB12", "cd34"]) = [("hashes", "ab12|cd34")] := by
  constructor
  · intro arg
    cases arg with
    | str s =>
      by_cases h : s = "all"
      · subst h
        decide
      · simp [process_infohash_list, normalizeSpec, h]
    | list l => rfl
  · decide

/-- C7: for every server response with a non-error status, dispatch
returns the empty JSON object when the body is empty, the parsed JSON
value when the body parses, and the raw response text unchanged when
parsing fails. -/
theorem dispatch_success_normalization (parse : String → Option Json)
    (status maxAttempts : Nat) (body : String)
    (h : ¬(400 ≤ status ∧ status < 600)) :
    (body = "" →
      (dispatch parse (fun _ => ⟨status, body⟩) maxAttempts).result =
        .ok (.json (.obj []))) ∧
    (∀ j, parse body = some j → body ≠ "" →
      (dispatch parse (fun _ => ⟨status, body⟩) maxAttempts).result = .ok (.json j)) ∧
    (parse body = none → body ≠ "" →
      (dispatch parse (fun _ => ⟨status, body⟩) maxAttempts).result = .ok (.text body)) := by
  have key : (dispatch parse (fun _ => ⟨status, body⟩) maxAttempts).result =
      .ok (responseData parse body) := by
    unfold dispatch
    rw [dispatchAux]
    rw [dif_neg (by omega : ¬(status = 403 ∧ 0 ≤ maxAttempts))]
    rw [if_neg h]
  refine ⟨?_, ?_, ?_⟩
  · intro hb
    rw [key]
    simp [responseData, hb]
  · intro j hj hb
    rw [key]
    simp [responseData, hj, hb]
  · intro hj hb
    rw [key]
    simp [responseData, hj, hb]

/-- Witness for C7 at the spec's example: HTTP 200 with the plain-text
body `"v4.3.2"` and a parser rejecting it — the call returns the raw
string unchanged. -/
theorem dispatch_success_normalization_witness :
    ¬((400 : Nat) ≤ 200 ∧ (200 : Nat) < 600) ∧
      (dispatch (fun _ => none) (fun _ => ⟨200, "v4.3.2"⟩) 3).result =
        .ok (.text "v4.3.2") := by
  refine ⟨by decide, ?_⟩
  exact (dispatch_success_normalization (fun _ => none) 200 3 "v4.3.2"
    (by decide)).2.2 rfl (by decide)

/-- C8 counterexample: the claim says every HTTP request, including the
login request, carries the configured timeout. With a configured timeout
of 5 seconds, the login POST (lines 194-198 pass only `data` and
`verify`, no `timeout` keyword) is issued with no timeout at all. -/
theorem login_call_drops_configured_timeout :
    (login_http_call (⟨"http://host/api/v2/", true, some 5⟩ : Config Nat)).timeout
        = none ∧
      (⟨"http://host/api/v2/", true, some 5⟩ : Config Nat).timeout = some 5 :=
  ⟨rfl, rfl⟩

/-- C8 amended: every HTTP request issued through `_request` — the path of
every operation other than login itself — carries the configured timeout
(and verify) settings; the login request is issued without any timeout
keyword and is therefore not bounded by the configured timeout. -/
theorem request_calls_carry_timeout {T : Type} (cfg : Config T) (endpoint : String) :
    (request_http_call cfg endpoint).timeout = cfg.timeout ∧
    (request_http_call cfg endpoint).verify = cfg.verify ∧
    (login_http_call cfg).timeout = none :=
  ⟨rfl, rfl, rfl⟩

/-- C9: a priority outside `{0, 1, 2, 4, 6, 7}` makes `set_file_priority`
raise `ValueError` (the spec's `ValidationError`) with zero network calls
issued; a network call is issued only when the priority is in the set and
the file id is an `int`. -/
theorem set_file_priority_validates_before_network (infohash : String)
    (file_id priority : PyValue) :
    (priority ∉ allowedPriorities →
      set_file_priority infohash file_id priority = (some .valueError, [])) ∧
    ((set_file_priority infohash file_id priority).2 ≠ [] →
      priority ∈ allowedPriorities ∧ file_id.isInt = true) := by
  constructor
  · intro hp
    simp [set_file_priority, hp]
  · intro hcalls
    by_cases hp : priority ∈ allowedPriorities
    · by_cases hf : file_id.isInt
      · exact ⟨hp, hf⟩
      · rw [set_file_priority, if_neg (by simpa using hp)] at hcalls
        simp [hf] at hcalls
    · rw [set_file_priority, if_pos hp] at hcalls
      simp at hcalls

/-- Witness for C9 at priority 3 (not an allowed level): `ValueError` is
raised and the list of issued network calls is empty. -/
theorem set_file_priority_validates_before_network_witness :
    (PyValue.int 3) ∉ allowedPriorities ∧
      set_file_priority "AB" (.str "x") (.int 3) = (some .valueError, []) := by
  refine ⟨by decide, ?_⟩
  exact (set_file_priority_validates_before_network "AB" (.str "x") (.int 3)).1
    (by decide)

/-- The slash-restoring property of `specRoot`: when the base URL ends
with a slash, putting the slash back after dropping it gives the URL
back. -/
theorem specRoot_append_slash (url : String) (h : endsWithSlash url = true) :
    specRoot url ++ "/" = url := by
  have hl : url.data.getLast? = some '/' := by
    simpa [endsWithSlash] using h
  apply string_eq_of_data_eq
  rw [string_data_append]
  simp only [specRoot, h, if_pos]
  exact List.dropLast_append_getLast? '/' hl

/-- C10: for every base URL given to the constructor, with or without a
trailing slash, every dispatched request targets exactly
`<root>/api/v2/<endpoint>` where `<root>` is the base URL with its
trailing slash (when present) removed — a single slash separates the root
from the API path. -/
theorem dispatched_url_is_root_api_v2 (url endpoint : String) :
    final_url (clientBaseUrl url) endpoint = specRoot url ++ "/api/v2/" ++ endpoint := by
  have hsplit : ("/api/v2/" : String) = "/" ++ "api/v2/" := rfl
  unfold final_url clientBaseUrl
  by_cases h : endsWithSlash url
  · rw [if_pos h, hsplit, ← string_append_assoc (specRoot url) "/" "api/v2/",
      specRoot_append_slash url h]
  · rw [if_neg h]
    unfold specRoot
    rw [if_neg h, hsplit, ← string_append_assoc url "/" "api/v2/"]

end QBit
